import Mathlib

/-!
Shallow embedding of `src/src/main/native/notification-monitor/notification-monitor-windows.cc`
(the Windows stub of the flowstate-dashboard native notification monitor), together with
theorems settling the specification claims about it.

Modelling conventions:
* N-API JavaScript values passed over the binding boundary are the inductive `JSValue`;
  a `Napi::FunctionReference` is identified by the `Nat` id of the JS function it holds.
* The C++ object `NotificationMonitor` is the structure of the same name: its fields
  `callback_` (the persistent function reference, `none` while unset) and `isMonitoring_`
  mirror the two instance fields of the class; `id` stands for the object's address,
  used only to say which instance the process-wide globals point at.
* The process-wide globals `g_callback` / `g_monitorInstance` are the structure
  `GlobalState`; the lambda stored in `g_callback` captures `this`, so it is modelled
  by the id of the captured instance.
* External side effects (registering with a platform notification API, acquiring or
  releasing a resource) are reified as an `Effect` list returned by each operation;
  the stub's code performs none, so the embedded operations emit none.
* `std::gmtime` output is the broken-down UTC time `UtcTime`; `put_time` with the
  format `"%Y-%m-%dT%H:%M:%SZ"` is `formatTimestamp`, built from an explicit decimal
  printer so its output can be reasoned about character by character.
-/

/-- A JavaScript value as seen through the N-API boundary.  A function carries the
identity of the underlying JS function object. -/
inductive JSValue where
  | function (fid : Nat)
  | undefined
  | null
  | boolean (b : Bool)
  | number (n : Int)
  | string (s : String)
  deriving DecidableEq, Repr

/-- `Napi::Value::IsFunction`. -/
def JSValue.isFunction : JSValue → Bool
  | .function _ => true
  | _ => false

/-- External side effects an operation could perform.  The Windows stub never performs
any of these (its `SetupMonitoring` body only sets a flag), so every embedded
operation returns an empty effect list; the constructors enumerate what a real
implementation would do, letting the frame theorems state their absence. -/
inductive Effect where
  | platformRegister (api : String)
  | platformUnregister (api : String)
  | resourceAcquire (r : String)
  | resourceRelease (r : String)
  deriving DecidableEq, Repr

/-- The instance state of the C++ class `NotificationMonitor`:
`callback_ : Napi::FunctionReference` (as the id of the held JS function, `none` while
empty) and `isMonitoring_ : bool`.  `id` models the object's address. -/
structure NotificationMonitor where
  id : Nat
  callback_ : Option Nat
  isMonitoring_ : Bool
  deriving DecidableEq, Repr

/-- The process-wide globals of the translation unit:
`NotificationMonitor* g_monitorInstance` and the `std::function` `g_callback`
(a lambda capturing `this`, modelled by the captured instance's id). -/
structure GlobalState where
  g_monitorInstance : Option Nat
  g_callback : Option Nat
  deriving DecidableEq, Repr

/-- The error raised by the constructor:
`Napi::TypeError::New(env, "Callback function required")`. -/
inductive ConstructError where
  | invalidCallback
  deriving DecidableEq, Repr

namespace NotificationMonitor

/-- `NotificationMonitor::SetupMonitoring`: the body is only `isMonitoring_ = true;`
(the WinRT registration is a TODO), so it changes the flag and performs no
external effect. -/
def SetupMonitoring (m : NotificationMonitor) : NotificationMonitor × List Effect :=
  ({ m with isMonitoring_ := true }, [])

/-- The value and effects of a `start`/`stop` call: the updated instance, the
JS value returned to the caller, and the external effects performed. -/
structure CallResult where
  inst : NotificationMonitor
  ret : JSValue
  effects : List Effect
  deriving DecidableEq, Repr

/-- `NotificationMonitor::Start`: `if (!isMonitoring_) SetupMonitoring(); return Undefined;`.
The second component counts how many times `SetupMonitoring` was invoked during the call. -/
def Start (m : NotificationMonitor) : CallResult × Nat :=
  if m.isMonitoring_ then
    ({ inst := m, ret := JSValue.undefined, effects := [] }, 0)
  else
    let s := SetupMonitoring m
    ({ inst := s.1, ret := JSValue.undefined, effects := s.2 }, 1)

/-- `NotificationMonitor::Stop`: `isMonitoring_ = false; return Undefined;`. -/
def Stop (m : NotificationMonitor) : CallResult :=
  { inst := { m with isMonitoring_ := false }, ret := JSValue.undefined, effects := [] }

/-- The destructor `~NotificationMonitor`: `if (isMonitoring_) Stop(...);`. -/
def destructor (m : NotificationMonitor) : NotificationMonitor × List Effect :=
  if m.isMonitoring_ then ((Stop m).inst, (Stop m).effects) else (m, [])

end NotificationMonitor

/-- Broken-down UTC time, as produced by `std::gmtime` on the captured
`system_clock::now()` value (`year` is the full Gregorian year that
`put_time` prints for `%Y`). -/
structure UtcTime where
  year : Nat
  month : Nat
  day : Nat
  hour : Nat
  minute : Nat
  second : Nat
  deriving DecidableEq, Repr

/-- The decimal digits of `n`, most significant first (empty for `0`); `48` is the
code point of the digit `0`.  This is the digit sequence `strftime` prints for an
unpadded decimal field. -/
def decDigits (n : Nat) : List Char :=
  if h : n = 0 then []
  else decDigits (n / 10) ++ [Char.ofNat (48 + n % 10)]
termination_by n
decreasing_by exact Nat.div_lt_self (Nat.pos_of_ne_zero h) (by decide)

/-- Unpadded decimal rendering of `n`, as `strftime` prints `%Y`. -/
def natDecimal (n : Nat) : String :=
  if n = 0 then "0" else String.mk (decDigits n)

/-- Two-digit zero-padded decimal rendering, as `strftime` prints `%m`, `%d`,
`%H`, `%M`, `%S`. -/
def pad2 (n : Nat) : String :=
  if n < 10 then "0" ++ natDecimal n else natDecimal n

/-- `put_time(gmtime(&t), "%Y-%m-%dT%H:%M:%SZ")`: the timestamp string written into
the delivered notification object. -/
def formatTimestamp (t : UtcTime) : String :=
  natDecimal t.year ++ "-" ++ pad2 t.month ++ "-" ++ pad2 t.day ++ "T" ++
    pad2 t.hour ++ ":" ++ pad2 t.minute ++ ":" ++ pad2 t.second ++ "Z"

/-- Decides whether `s` matches the anchored pattern from the specification,
`^\d\x7b4\x7d-\d\x7b2\x7d-\d\x7b2\x7dT\d\x7b2\x7d:\d\x7b2\x7d:\d\x7b2\x7dZ$`:
exactly 20 characters, digits and the literal separators in fixed positions. -/
def matchesTimestampFormat (s : String) : Bool :=
  match s.data with
  | [y1, y2, y3, y4, a, mo1, mo2, b, da1, da2, c, h1, h2, d, mi1, mi2, e, s1, s2, f] =>
      y1.isDigit && y2.isDigit && y3.isDigit && y4.isDigit &&
      a == '-' && mo1.isDigit && mo2.isDigit && b == '-' &&
      da1.isDigit && da2.isDigit && c == 'T' &&
      h1.isDigit && h2.isDigit && d == ':' &&
      mi1.isDigit && mi2.isDigit && e == ':' &&
      s1.isDigit && s2.isDigit && f == 'Z'
  | _ => false

/-- Property read on a JS object modelled as its ordered list of `Set` calls
(first binding wins; the keys written here are distinct anyway). -/
def getField (fields : List (String × JSValue)) (k : String) : Option JSValue :=
  (fields.find? (fun kv => kv.1 == k)).map Prod.snd

/-- `NotificationMonitor::OnNotificationReceived`: builds the notification object by
four `Set` calls (`appName`, `title`, `body`, then the freshly formatted UTC
`timestamp`) and invokes `callback_.Call` with it.  The body never reads
`isMonitoring_`.  The result is `some (f, fields)` when the host function `f` held by
`callback_` is invoked with the object `fields`, and `none` when no host callback can
be invoked (empty `callback_`: the `Call` fails and the surrounding `try`/`catch`
swallows the error without delivering anything). -/
def NotificationMonitor.OnNotificationReceived (m : NotificationMonitor)
    (appName title body : String) (now : UtcTime) :
    Option (Nat × List (String × JSValue)) :=
  match m.callback_ with
  | some f =>
      some (f, [("appName", JSValue.string appName),
                ("title", JSValue.string title),
                ("body", JSValue.string body),
                ("timestamp", JSValue.string (formatTimestamp now))])
  | none => none

/-- The constructor `NotificationMonitor::NotificationMonitor(const Napi::CallbackInfo&)`.
The member initializer sets `isMonitoring_(false)`.  Then
`if (info.Length() < 1 || !info[0].IsFunction())` a `TypeError`
("Callback function required") is thrown and the constructor returns before touching
the globals; otherwise `callback_` is set to a persistent reference to `info[0]`,
`g_monitorInstance` to `this`, and `g_callback` to a lambda capturing `this`.
`args` is `info`, `newId` models the new object's address, `g` the globals before the
call; the result is the constructed object, the globals after the call, and the
pending JS exception if any. -/
def NotificationMonitor.construct (args : List JSValue) (newId : Nat)
    (g : GlobalState) : NotificationMonitor × GlobalState × Option ConstructError :=
  match args with
  | JSValue.function fid :: _ =>
      (⟨newId, some fid, false⟩,
        { g_monitorInstance := some newId, g_callback := some newId }, none)
  | _ => (⟨newId, none, false⟩, g, some ConstructError.invalidCallback)

/-- A host-level operation on the binding, for the trace semantics of the
process-wide globals. -/
inductive Op where
  | construct (args : List JSValue) (newId : Nat)
  | start (instId : Nat)
  | stop (instId : Nat)
  | destroy (instId : Nat)
  deriving DecidableEq, Repr

/-- Process state: the translation-unit globals plus the live instances. -/
structure World where
  globals : GlobalState
  instances : List NotificationMonitor
  deriving DecidableEq, Repr

/-- One operation step on the process state.  Construction runs the constructor
against the current globals and adds the new object (even on a pending exception the
C++ object was constructed); `start`/`stop` act on the addressed instance and touch
no global; destruction runs the destructor (which touches no global) and removes the
instance. -/
def World.step (w : World) : Op → World
  | Op.construct args newId =>
      let r := NotificationMonitor.construct args newId w.globals
      { globals := r.2.1, instances := w.instances ++ [r.1] }
  | Op.start i =>
      { w with instances := w.instances.map (fun m =>
          if m.id == i then (NotificationMonitor.Start m).1.inst else m) }
  | Op.stop i =>
      { w with instances := w.instances.map (fun m =>
          if m.id == i then (NotificationMonitor.Stop m).inst else m) }
  | Op.destroy i =>
      let destroyed := w.instances.map (fun m =>
        if m.id == i then (NotificationMonitor.destructor m).1 else m)
      { w with instances := destroyed.filter (fun m => !(m.id == i)) }

/-- Run a sequence of operations from `w`. -/
def World.run (w : World) (ops : List Op) : World :=
  ops.foldl World.step w

/-- How one operation updates "the id of the most recently successfully constructed
instance": a construction whose first argument is a function overwrites it, every
other operation (and a failed construction) leaves it alone. -/
def lastStep (a : Option Nat) : Op → Option Nat
  | Op.construct args newId =>
      match args with
      | JSValue.function _ :: _ => some newId
      | _ => a
  | _ => a

/-- The id of the most recently successfully constructed instance over `ops`,
starting from `acc`. -/
def lastConstructed (acc : Option Nat) (ops : List Op) : Option Nat :=
  ops.foldl lastStep acc

/-- Delivery of an OS notification event through the process-wide `g_callback`:
the stored lambda calls `OnNotificationReceived` on the one instance it captured.
The result lists the `(instance id, payload)` deliveries performed (empty when no
callback is registered or nothing can be invoked). -/
def World.dispatchOSEvent (w : World) (appName title body : String) (now : UtcTime) :
    List (Nat × List (String × JSValue)) :=
  match w.globals.g_callback with
  | some i =>
      match w.instances.find? (fun m => m.id == i) with
      | some m =>
          match NotificationMonitor.OnNotificationReceived m appName title body now with
          | some r => [(i, r.2)]
          | none => []
      | none => []
  | none => []

/-- Claim C4: `start()` is idempotent: calling `start()` while already Monitoring is a
no-op that returns success (undefined), and calling `start()` twice in a row from Idle
leaves the monitor in the same state as calling it once, with `SetupMonitoring`
invoked exactly once across the two calls. -/
theorem Start_idempotent (m : NotificationMonitor) :
    (m.isMonitoring_ = true →
      (NotificationMonitor.Start m).1.inst = m ∧
      (NotificationMonitor.Start m).1.ret = JSValue.undefined ∧
      (NotificationMonitor.Start m).2 = 0) ∧
    (m.isMonitoring_ = false →
      (NotificationMonitor.Start (NotificationMonitor.Start m).1.inst).1.inst =
        (NotificationMonitor.Start m).1.inst ∧
      (NotificationMonitor.Start m).2 +
        (NotificationMonitor.Start (NotificationMonitor.Start m).1.inst).2 = 1) := by
  constructor
  · intro h
    simp [NotificationMonitor.Start, h]
  · intro h
    simp [NotificationMonitor.Start, NotificationMonitor.SetupMonitoring, h]

/-- Witness for C4: both branches of `Start_idempotent` at concrete monitoring and
idle instances. -/
theorem Start_idempotent_witness :
    ((NotificationMonitor.Start ⟨0, some 7, true⟩).1.inst = (⟨0, some 7, true⟩ : NotificationMonitor) ∧
      (NotificationMonitor.Start ⟨0, some 7, true⟩).1.ret = JSValue.undefined ∧
      (NotificationMonitor.Start ⟨0, some 7, true⟩).2 = 0) ∧
    ((NotificationMonitor.Start (NotificationMonitor.Start ⟨1, some 7, false⟩).1.inst).1.inst =
        (NotificationMonitor.Start ⟨1, some 7, false⟩).1.inst ∧
      (NotificationMonitor.Start ⟨1, some 7, false⟩).2 +
        (NotificationMonitor.Start (NotificationMonitor.Start ⟨1, some 7, false⟩).1.inst).2 = 1) :=
  ⟨(Start_idempotent ⟨0, some 7, true⟩).1 rfl, (Start_idempotent ⟨1, some 7, false⟩).2 rfl⟩

/-- Claim C5: `stop()` is idempotent and total: for every monitor state it returns
undefined, leaves the monitor Idle, `stop();stop()` yields the same state as `stop()`,
and `stop()` on an already-Idle monitor is a no-op. -/
theorem Stop_idempotent_total (m : NotificationMonitor) :
    (NotificationMonitor.Stop m).ret = JSValue.undefined ∧
    (NotificationMonitor.Stop m).inst.isMonitoring_ = false ∧
    NotificationMonitor.Stop (NotificationMonitor.Stop m).inst = NotificationMonitor.Stop m ∧
    (m.isMonitoring_ = false → (NotificationMonitor.Stop m).inst = m) := by
  refine ⟨rfl, rfl, rfl, ?_⟩
  intro h
  cases m
  simp_all [NotificationMonitor.Stop]

/-- Witness for C5: `Stop_idempotent_total` at a concrete idle instance. -/
theorem Stop_idempotent_total_witness :
    (NotificationMonitor.Stop ⟨2, some 3, false⟩).ret = JSValue.undefined ∧
    (NotificationMonitor.Stop ⟨2, some 3, false⟩).inst.isMonitoring_ = false ∧
    NotificationMonitor.Stop (NotificationMonitor.Stop ⟨2, some 3, false⟩).inst =
      NotificationMonitor.Stop ⟨2, some 3, false⟩ ∧
    (NotificationMonitor.Stop ⟨2, some 3, false⟩).inst = (⟨2, some 3, false⟩ : NotificationMonitor) :=
  ⟨(Stop_idempotent_total _).1, (Stop_idempotent_total _).2.1,
    (Stop_idempotent_total _).2.2.1, (Stop_idempotent_total _).2.2.2 rfl⟩

/-- Claim C7: `Start` and `Stop` only toggle `isMonitoring_`: neither changes any other
instance field (`id`, `callback_`), and neither performs any external effect — no
platform notification API is registered or unregistered and no resource is acquired
or released. -/
theorem Start_Stop_frame (m : NotificationMonitor) :
    (NotificationMonitor.Start m).1.inst.id = m.id ∧
    (NotificationMonitor.Start m).1.inst.callback_ = m.callback_ ∧
    (NotificationMonitor.Start m).1.effects = [] ∧
    (NotificationMonitor.Stop m).inst.id = m.id ∧
    (NotificationMonitor.Stop m).inst.callback_ = m.callback_ ∧
    (NotificationMonitor.Stop m).effects = [] := by
  refine ⟨?_, ?_, ?_, rfl, rfl, rfl⟩ <;>
    simp [NotificationMonitor.Start, NotificationMonitor.SetupMonitoring] <;>
    cases m.isMonitoring_ <;> simp

/-- Claim C8: the destructor of a Monitoring instance implicitly performs `Stop`,
leaving the monitoring flag false; destroying an Idle instance performs no state
change (and neither case performs external effects). -/
theorem destructor_stops (m : NotificationMonitor) :
    (NotificationMonitor.destructor m).1.isMonitoring_ = false ∧
    (m.isMonitoring_ = false → NotificationMonitor.destructor m = (m, [])) := by
  constructor
  · by_cases h : m.isMonitoring_ = true <;>
      simp [NotificationMonitor.destructor, NotificationMonitor.Stop, h]
  · intro h
    simp [NotificationMonitor.destructor, h]

/-- Witness for C8: `destructor_stops` at concrete monitoring and idle instances. -/
theorem destructor_stops_witness :
    (NotificationMonitor.destructor ⟨4, some 9, true⟩).1.isMonitoring_ = false ∧
    NotificationMonitor.destructor ⟨5, some 9, false⟩ = ((⟨5, some 9, false⟩ : NotificationMonitor), []) :=
  ⟨(destructor_stops ⟨4, some 9, true⟩).1, (destructor_stops ⟨5, some 9, false⟩).2 rfl⟩

theorem decDigits_zero : decDigits 0 = [] := by
  rw [decDigits]
  simp

theorem decDigits_step (n : Nat) (h : n ≠ 0) :
    decDigits n = decDigits (n / 10) ++ [Char.ofNat (48 + n % 10)] := by
  rw [decDigits]
  simp [h]

theorem isDigit_ofNat_48_add (k : Nat) (h : k < 10) :
    (Char.ofNat (48 + k)).isDigit = true := by
  interval_cases k <;> decide

theorem decDigits_one_digit (n : Nat) (h0 : n ≠ 0) (h : n < 10) :
    decDigits n = [Char.ofNat (48 + n)] := by
  rw [decDigits_step n h0, Nat.div_eq_of_lt h, decDigits_zero, Nat.mod_eq_of_lt h]
  simp

theorem decDigits_two_digits (n : Nat) (h1 : 10 ≤ n) (h2 : n < 100) :
    decDigits n = [Char.ofNat (48 + n / 10), Char.ofNat (48 + n % 10)] := by
  rw [decDigits_step n (by omega),
    decDigits_one_digit (n / 10) (by omega) (by omega)]
  simp

theorem decDigits_three_digits (n : Nat) (h1 : 100 ≤ n) (h2 : n < 1000) :
    decDigits n = [Char.ofNat (48 + n / 100), Char.ofNat (48 + n / 10 % 10),
      Char.ofNat (48 + n % 10)] := by
  rw [decDigits_step n (by omega),
    decDigits_two_digits (n / 10) (by omega) (by omega)]
  have e1 : n / 10 / 10 = n / 100 := by omega
  have e2 : n / 10 % 10 = n / 10 % 10 := rfl
  rw [e1]
  simp

theorem decDigits_four_digits (n : Nat) (h1 : 1000 ≤ n) (h2 : n < 10000) :
    decDigits n = [Char.ofNat (48 + n / 1000), Char.ofNat (48 + n / 100 % 10),
      Char.ofNat (48 + n / 10 % 10), Char.ofNat (48 + n % 10)] := by
  rw [decDigits_step n (by omega),
    decDigits_three_digits (n / 10) (by omega) (by omega)]
  have e1 : n / 10 / 100 = n / 1000 := by omega
  have e2 : n / 10 / 10 % 10 = n / 100 % 10 := by omega
  rw [e1, e2]
  simp

theorem natDecimal_four_digits (n : Nat) (h1 : 1000 ≤ n) (h2 : n < 10000) :
    (natDecimal n).data = [Char.ofNat (48 + n / 1000), Char.ofNat (48 + n / 100 % 10),
      Char.ofNat (48 + n / 10 % 10), Char.ofNat (48 + n % 10)] := by
  rw [natDecimal]
  simp only [show n ≠ 0 by omega, if_neg, ite_false]
  rw [decDigits_four_digits n h1 h2]

theorem pad2_two_digits (n : Nat) (h : n < 100) :
    ∃ a b, (pad2 n).data = [a, b] ∧ a.isDigit = true ∧ b.isDigit = true := by
  by_cases h10 : n < 10
  · by_cases h0 : n = 0
    · subst h0
      refine ⟨Char.ofNat 48, Char.ofNat 48, ?_, by decide, by decide⟩
      rw [pad2, natDecimal]
      simp
    · refine ⟨Char.ofNat 48, Char.ofNat (48 + n), ?_, by decide,
        isDigit_ofNat_48_add n h10⟩
      rw [pad2, natDecimal]
      simp only [h10, if_true, h0, if_neg, ite_false]
      rw [String.data_append, decDigits_one_digit n h0 h10]
      rfl
  · refine ⟨Char.ofNat (48 + n / 10), Char.ofNat (48 + n % 10), ?_,
      isDigit_ofNat_48_add _ (by omega), isDigit_ofNat_48_add _ (by omega)⟩
    rw [pad2, natDecimal]
    simp only [h10, if_false, ite_false, show n ≠ 0 by omega, if_neg]
    rw [decDigits_two_digits n (by omega) h]

theorem matchesTimestampFormat_of_data (s : String)
    (y1 y2 y3 y4 mo1 mo2 da1 da2 h1 h2 mi1 mi2 s1 s2 : Char)
    (hdata : s.data = [y1, y2, y3, y4, '-', mo1, mo2, '-', da1, da2, 'T',
      h1, h2, ':', mi1, mi2, ':', s1, s2, 'Z'])
    (hy1 : y1.isDigit = true) (hy2 : y2.isDigit = true) (hy3 : y3.isDigit = true)
    (hy4 : y4.isDigit = true) (hmo1 : mo1.isDigit = true) (hmo2 : mo2.isDigit = true)
    (hda1 : da1.isDigit = true) (hda2 : da2.isDigit = true) (hh1 : h1.isDigit = true)
    (hh2 : h2.isDigit = true) (hmi1 : mi1.isDigit = true) (hmi2 : mi2.isDigit = true)
    (hs1 : s1.isDigit = true) (hs2 : s2.isDigit = true) :
    matchesTimestampFormat s = true := by
  unfold matchesTimestampFormat
  rw [hdata]
  simp_all

theorem formatTimestamp_data (t : UtcTime) :
    (formatTimestamp t).data =
      (natDecimal t.year).data ++ ['-'] ++ (pad2 t.month).data ++ ['-'] ++
      (pad2 t.day).data ++ ['T'] ++ (pad2 t.hour).data ++ [':'] ++
      (pad2 t.minute).data ++ [':'] ++ (pad2 t.second).data ++ ['Z'] := by
  unfold formatTimestamp
  simp only [String.data_append]

theorem formatTimestamp_matches (t : UtcTime)
    (hy1 : 1000 ≤ t.year) (hy2 : t.year < 10000) (hmo : t.month < 100)
    (hda : t.day < 100) (hh : t.hour < 100) (hmi : t.minute < 100)
    (hs : t.second < 100) :
    matchesTimestampFormat (formatTimestamp t) = true := by
  obtain ⟨mo1, mo2, hmoD, hmo1, hmo2⟩ := pad2_two_digits t.month hmo
  obtain ⟨da1, da2, hdaD, hda1, hda2⟩ := pad2_two_digits t.day hda
  obtain ⟨h1, h2, hhD, hh1, hh2⟩ := pad2_two_digits t.hour hh
  obtain ⟨mi1, mi2, hmiD, hmi1, hmi2⟩ := pad2_two_digits t.minute hmi
  obtain ⟨s1, s2, hsD, hs1, hs2⟩ := pad2_two_digits t.second hs
  refine matchesTimestampFormat_of_data (formatTimestamp t)
    (Char.ofNat (48 + t.year / 1000)) (Char.ofNat (48 + t.year / 100 % 10))
    (Char.ofNat (48 + t.year / 10 % 10)) (Char.ofNat (48 + t.year % 10))
    mo1 mo2 da1 da2 h1 h2 mi1 mi2 s1 s2 ?_
    (isDigit_ofNat_48_add _ (by omega)) (isDigit_ofNat_48_add _ (by omega))
    (isDigit_ofNat_48_add _ (by omega)) (isDigit_ofNat_48_add _ (by omega))
    hmo1 hmo2 hda1 hda2 hh1 hh2 hmi1 hmi2 hs1 hs2
  rw [formatTimestamp_data, natDecimal_four_digits t.year hy1 hy2,
    hmoD, hdaD, hhD, hmiD, hsD]
  rfl

/-- Claim C2: every notification payload delivered to the host callback is an object
with exactly the four fields `appName`, `title`, `body`, `timestamp`, in that order,
and every field holds a string. -/
theorem delivered_payload_shape (m : NotificationMonitor)
    (appName title body : String) (now : UtcTime) (f : Nat)
    (fields : List (String × JSValue))
    (hdeliv : NotificationMonitor.OnNotificationReceived m appName title body now =
      some (f, fields)) :
    fields.map Prod.fst = ["appName", "title", "body", "timestamp"] ∧
    ∀ kv ∈ fields, ∃ s, kv.2 = JSValue.string s := by
  unfold NotificationMonitor.OnNotificationReceived at hdeliv
  cases hcb : m.callback_ with
  | none => rw [hcb] at hdeliv; exact absurd hdeliv (by simp)
  | some g =>
      rw [hcb] at hdeliv
      simp only [Option.some.injEq, Prod.mk.injEq] at hdeliv
      obtain ⟨-, hfields⟩ := hdeliv
      subst hfields
      refine ⟨rfl, ?_⟩
      intro kv hkv
      simp only [List.mem_cons, List.not_mem_nil, or_false] at hkv
      rcases hkv with h | h | h | h <;> subst h <;> exact ⟨_, rfl⟩

/-- Witness for C2: `delivered_payload_shape` on a concrete delivery. -/
theorem delivered_payload_shape_witness :
    ([("appName", JSValue.string "Slack"), ("title", JSValue.string "Hi"),
      ("body", JSValue.string ""),
      ("timestamp", JSValue.string (formatTimestamp ⟨2026, 10, 11, 7, 5, 42⟩))].map
        Prod.fst = ["appName", "title", "body", "timestamp"]) ∧
    ∀ kv ∈ [("appName", JSValue.string "Slack"), ("title", JSValue.string "Hi"),
      ("body", JSValue.string ""),
      ("timestamp", JSValue.string (formatTimestamp ⟨2026, 10, 11, 7, 5, 42⟩))],
      ∃ s, kv.2 = JSValue.string s :=
  delivered_payload_shape ⟨0, some 3, true⟩ "Slack" "Hi" "" ⟨2026, 10, 11, 7, 5, 42⟩
    3 _ rfl

/-- Claim C3: the `timestamp` field of every delivered record is generated at capture
time from the UTC clock reading (it equals `formatTimestamp now`, independent of the
raw event fields) and matches the anchored pattern
`^\d\x7b4\x7d-\d\x7b2\x7d-\d\x7b2\x7dT\d\x7b2\x7d:\d\x7b2\x7d:\d\x7b2\x7dZ$`, for
any capture time whose broken-down fields are in the ranges `gmtime` can print in
two digits and a four-digit year. -/
theorem delivered_timestamp_capture_utc (m : NotificationMonitor)
    (appName title body : String) (now : UtcTime) (f : Nat)
    (fields : List (String × JSValue))
    (hdeliv : NotificationMonitor.OnNotificationReceived m appName title body now =
      some (f, fields))
    (hy1 : 1000 ≤ now.year) (hy2 : now.year < 10000) (hmo : now.month < 100)
    (hda : now.day < 100) (hh : now.hour < 100) (hmi : now.minute < 100)
    (hs : now.second < 100) :
    getField fields "timestamp" = some (JSValue.string (formatTimestamp now)) ∧
    matchesTimestampFormat (formatTimestamp now) = true := by
  refine ⟨?_, formatTimestamp_matches now hy1 hy2 hmo hda hh hmi hs⟩
  unfold NotificationMonitor.OnNotificationReceived at hdeliv
  cases hcb : m.callback_ with
  | none => rw [hcb] at hdeliv; exact absurd hdeliv (by simp)
  | some g =>
      rw [hcb] at hdeliv
      simp only [Option.some.injEq, Prod.mk.injEq] at hdeliv
      obtain ⟨-, hfields⟩ := hdeliv
      subst hfields
      rfl

/-- Witness for C3: `delivered_timestamp_capture_utc` on a concrete delivery at
2026-10-11 07:05:42 UTC. -/
theorem delivered_timestamp_capture_utc_witness :
    getField [("appName", JSValue.string "Slack"), ("title", JSValue.string "Hi"),
      ("body", JSValue.string ""),
      ("timestamp", JSValue.string (formatTimestamp ⟨2026, 10, 11, 7, 5, 42⟩))]
      "timestamp" = some (JSValue.string (formatTimestamp ⟨2026, 10, 11, 7, 5, 42⟩)) ∧
    matchesTimestampFormat (formatTimestamp ⟨2026, 10, 11, 7, 5, 42⟩) = true :=
  delivered_timestamp_capture_utc ⟨0, some 3, true⟩ "Slack" "Hi" ""
    ⟨2026, 10, 11, 7, 5, 42⟩ 3 _ rfl (by decide) (by decide) (by decide) (by decide)
    (by decide) (by decide) (by decide)

/-- Claim C1 (code bug): after `stop()` the monitoring flag is false, yet a
subsequently arriving OS notification event is still delivered — the host callback is
invoked with the full payload, because `OnNotificationReceived` never reads
`isMonitoring_`.  This contradicts the claim/specification requirement that the flag
be checked at the delivery boundary and the event be dropped. -/
theorem stopped_monitor_still_delivers :
    (NotificationMonitor.Stop ⟨1, some 5, true⟩).inst.isMonitoring_ = false ∧
    NotificationMonitor.OnNotificationReceived
        (NotificationMonitor.Stop ⟨1, some 5, true⟩).inst
        "App" "Hello" "Body" ⟨2026, 1, 2, 3, 4, 5⟩ =
      some (5, [("appName", JSValue.string "App"), ("title", JSValue.string "Hello"),
        ("body", JSValue.string "Body"),
        ("timestamp", JSValue.string (formatTimestamp ⟨2026, 1, 2, 3, 4, 5⟩))]) :=
  ⟨rfl, rfl⟩

/-- Claim C6: construction fails if and only if no valid callback is supplied: the
pending exception is `InvalidCallback` exactly when the first argument is missing or
is not a function, and when a function is supplied as the first argument,
construction succeeds without raising. -/
theorem construct_fails_iff (args : List JSValue) (newId : Nat) (g : GlobalState) :
    ((NotificationMonitor.construct args newId g).2.2 =
        some ConstructError.invalidCallback ↔
      (args.length < 1 ∨ (args.headD JSValue.undefined).isFunction = false)) ∧
    ((args.headD JSValue.undefined).isFunction = true →
      (NotificationMonitor.construct args newId g).2.2 = none) := by
  cases args with
  | nil => simp [NotificationMonitor.construct, JSValue.isFunction]
  | cons v rest =>
      cases v <;> simp [NotificationMonitor.construct, JSValue.isFunction]

/-- Witness for C6: `construct_fails_iff` at an invalid (number) and a valid
(function) first argument. -/
theorem construct_fails_iff_witness :
    (NotificationMonitor.construct [JSValue.number 3] 1 ⟨none, none⟩).2.2 =
      some ConstructError.invalidCallback ∧
    (NotificationMonitor.construct [JSValue.function 8] 1 ⟨none, none⟩).2.2 = none :=
  ⟨(construct_fails_iff [JSValue.number 3] 1 ⟨none, none⟩).1.mpr (Or.inr rfl),
    (construct_fails_iff [JSValue.function 8] 1 ⟨none, none⟩).2 rfl⟩

/-- Claim C10: construction is atomic on error: when the constructor raises
`InvalidCallback`, it returns before assigning the globals, so `g_monitorInstance`
and `g_callback` are unchanged, the new object's monitoring flag is false and its
callback reference is still empty. -/
theorem construct_error_atomic (args : List JSValue) (newId : Nat) (g : GlobalState)
    (h : (NotificationMonitor.construct args newId g).2.2 =
      some ConstructError.invalidCallback) :
    (NotificationMonitor.construct args newId g).2.1 = g ∧
    (NotificationMonitor.construct args newId g).1.isMonitoring_ = false ∧
    (NotificationMonitor.construct args newId g).1.callback_ = none := by
  cases args with
  | nil => exact ⟨rfl, rfl, rfl⟩
  | cons v rest =>
      cases v with
      | function fid => exact absurd h (by simp [NotificationMonitor.construct])
      | _ => exact ⟨rfl, rfl, rfl⟩

/-- Witness for C10: `construct_error_atomic` on a construction whose first argument
is a number. -/
theorem construct_error_atomic_witness :
    (NotificationMonitor.construct [JSValue.number 3] 7 ⟨some 0, some 0⟩).2.1 =
      (⟨some 0, some 0⟩ : GlobalState) ∧
    (NotificationMonitor.construct [JSValue.number 3] 7 ⟨some 0, some 0⟩).1.isMonitoring_ =
      false ∧
    (NotificationMonitor.construct [JSValue.number 3] 7 ⟨some 0, some 0⟩).1.callback_ =
      none :=
  construct_error_atomic [JSValue.number 3] 7 ⟨some 0, some 0⟩ rfl

theorem step_g_monitorInstance (w : World) (op : Op) :
    (w.step op).globals.g_monitorInstance =
      lastStep w.globals.g_monitorInstance op := by
  cases op with
  | construct args newId =>
      cases args with
      | nil => rfl
      | cons v rest => cases v <;> rfl
  | start i => rfl
  | stop i => rfl
  | destroy i => rfl

theorem step_g_callback (w : World) (op : Op) :
    (w.step op).globals.g_callback = lastStep w.globals.g_callback op := by
  cases op with
  | construct args newId =>
      cases args with
      | nil => rfl
      | cons v rest => cases v <;> rfl
  | start i => rfl
  | stop i => rfl
  | destroy i => rfl

theorem run_globals (ops : List Op) : ∀ w : World,
    (World.run w ops).globals.g_monitorInstance =
      lastConstructed w.globals.g_monitorInstance ops ∧
    (World.run w ops).globals.g_callback =
      lastConstructed w.globals.g_callback ops := by
  induction ops with
  | nil => exact fun w => ⟨rfl, rfl⟩
  | cons op ops ih =>
      intro w
      refine ⟨?_, ?_⟩
      · calc (World.run w (op :: ops)).globals.g_monitorInstance
            = (World.run (w.step op) ops).globals.g_monitorInstance := rfl
          _ = lastConstructed (w.step op).globals.g_monitorInstance ops := (ih _).1
          _ = lastConstructed (lastStep w.globals.g_monitorInstance op) ops := by
              rw [step_g_monitorInstance]
          _ = lastConstructed w.globals.g_monitorInstance (op :: ops) := rfl
      · calc (World.run w (op :: ops)).globals.g_callback
            = (World.run (w.step op) ops).globals.g_callback := rfl
          _ = lastConstructed (w.step op).globals.g_callback ops := (ih _).2
          _ = lastConstructed (lastStep w.globals.g_callback op) ops := by
              rw [step_g_callback]
          _ = lastConstructed w.globals.g_callback (op :: ops) := rfl

theorem dispatch_target (w : World) (appName title body : String) (now : UtcTime)
    (d : Nat × List (String × JSValue))
    (hd : d ∈ w.dispatchOSEvent appName title body now) :
    w.globals.g_callback = some d.1 := by
  unfold World.dispatchOSEvent at hd
  cases hcb : w.globals.g_callback with
  | none => simp only [hcb] at hd; simp at hd
  | some i =>
      simp only [hcb] at hd
      cases hf : w.instances.find? (fun m => m.id == i) with
      | none => simp only [hf] at hd; simp at hd
      | some m =>
          simp only [hf] at hd
          cases hr : NotificationMonitor.OnNotificationReceived m appName title
              body now with
          | none => simp only [hr] at hd; simp at hd
          | some r =>
              simp only [hr, List.mem_singleton] at hd
              subst hd
              rfl

/-- Claim C9: a successful construction overwrites the process-wide globals, so
after any sequence of operations `g_monitorInstance` and `g_callback` both refer to
the most recently successfully constructed instance (unchanged from the initial
values if no construction succeeded), and any OS event dispatched through the global
callback is delivered only to that one instance (last constructed wins). -/
theorem globals_last_constructed_wins (w : World) (ops : List Op) :
    ((World.run w ops).globals.g_monitorInstance =
        lastConstructed w.globals.g_monitorInstance ops ∧
      (World.run w ops).globals.g_callback =
        lastConstructed w.globals.g_callback ops) ∧
    (∀ appName title body now d,
      d ∈ (World.run w ops).dispatchOSEvent appName title body now →
        (World.run w ops).globals.g_callback = some d.1) :=
  ⟨run_globals ops w, fun _ _ _ _ _ hd => dispatch_target _ _ _ _ _ _ hd⟩

/-- Witness for C9: two successful constructions (ids 1 then 2) followed by a stop;
the globals track instance 2 and the one dispatched delivery targets instance 2. -/
theorem globals_last_constructed_wins_witness :
    ((World.run ⟨⟨none, none⟩, []⟩ [Op.construct [JSValue.function 5] 1,
        Op.construct [JSValue.function 6] 2, Op.stop 2]).globals.g_monitorInstance =
      some 2 ∧
      (World.run ⟨⟨none, none⟩, []⟩ [Op.construct [JSValue.function 5] 1,
        Op.construct [JSValue.function 6] 2, Op.stop 2]).globals.g_callback =
      some 2) ∧
    (World.run ⟨⟨none, none⟩, []⟩ [Op.construct [JSValue.function 5] 1,
        Op.construct [JSValue.function 6] 2, Op.stop 2]).globals.g_callback =
      some (((2 : Nat), [("appName", JSValue.string "a"),
        ("title", JSValue.string "b"), ("body", JSValue.string "c"),
        ("timestamp",
          JSValue.string (formatTimestamp ⟨2026, 1, 1, 0, 0, 0⟩))]) :
        Nat × List (String × JSValue)).1 := by
  have h := globals_last_constructed_wins ⟨⟨none, none⟩, []⟩
    [Op.construct [JSValue.function 5] 1, Op.construct [JSValue.function 6] 2,
      Op.stop 2]
  refine ⟨⟨h.1.1.trans rfl, h.1.2.trans rfl⟩, ?_⟩
  refine h.2 "a" "b" "c" ⟨2026, 1, 1, 0, 0, 0⟩ _ ?_
  exact List.Mem.head _
